import Mathlib

/-!
Shallow embedding of `health_dashboard.py` (class `SystemMonitor` and the
`dashboard` command's alert evaluation).  Python floats are modelled as exact
rationals, Python ints as `Int`/`Nat`, raised exceptions as `Except`, and the
impure reads (clock, filesystem, psutil calls) as explicit parameters.
-/

namespace HealthDashboard

/-- Python `int(x)` applied to a float: truncation toward zero. -/
def pyTrunc (q : ℚ) : ℤ := if 0 ≤ q then ⌊q⌋ else -⌊-q⌋

/-- Rounding of `q` to the nearest integer, ties to even, as Python's
`format` rounding of an exactly-representable value behaves. -/
def rte (q : ℚ) : ℤ :=
  let f := ⌊q⌋
  let r := q - (f : ℚ)
  if r < 1/2 then f
  else if 1/2 < r then f + 1
  else if f % 2 = 0 then f else f + 1

/-- Python `f"{q:.1f}"`: one decimal digit, rounded ties-to-even. -/
def fmtOneDec (q : ℚ) : String :=
  let n := rte (q * 10)
  let sign := if n < 0 then "-" else ""
  let m := n.natAbs
  sign ++ toString (m / 10) ++ "." ++ toString (m % 10)

/-- The loop of `SystemMonitor.format_bytes` (lines 101-107): successively
divide by 1024 through the unit list, fall through to `PB`. -/
def fb_go : ℚ → List String → String
  | v, [] => fmtOneDec v ++ " PB"
  | v, u :: us => if v < 1024 then fmtOneDec v ++ " " ++ u else fb_go (v / 1024) us

/-- `SystemMonitor.format_bytes` (lines 101-107). -/
def format_bytes (n : ℚ) : String := fb_go n ["B", "KB", "MB", "GB", "TB"]

/-- Index of the unit `format_bytes` is expected to pick: the smallest `k`
with `n < 1024 ^ (k+1)`, capped at 5 (`PB`). -/
def unitIdx (n : ℚ) : ℕ :=
  if n < 1024 then 0
  else if n < 1024 ^ 2 then 1
  else if n < 1024 ^ 3 then 2
  else if n < 1024 ^ 4 then 3
  else if n < 1024 ^ 5 then 4
  else 5

/-- Unit suffix for `unitIdx`. -/
def unitName : ℕ → String
  | 0 => "B"
  | 1 => "KB"
  | 2 => "MB"
  | 3 => "GB"
  | 4 => "TB"
  | _ => "PB"

/-- `SystemMonitor.format_uptime` (lines 109-121).  `boot_time` and the
hidden `datetime.now()` read are whole-second timestamps; the subtraction
produces a Python `timedelta`, whose normalized fields are
`days = elapsed // 86400` (floor division) and `seconds = elapsed % 86400`
(always in `[0, 86400)`).  For a positive modulus Lean's Euclidean `/` and
`%` on `ℤ` agree with Python's floor division and modulo. -/
def format_uptime (boot_time now : ℤ) : String :=
  let uptime := now - boot_time
  let days := uptime / 86400
  let secs := uptime % 86400
  let hours := secs / 3600
  let remainder := secs % 3600
  let minutes := remainder / 60
  if days > 0 then s!"{days}d {hours}h {minutes}m"
  else if hours > 0 then s!"{hours}h {minutes}m"
  else s!"{minutes}m"

/-- Rendering claimed by the spec for `formatUptime`: days/hours/minutes of
the elapsed duration, with a negative elapsed duration treated as zero. -/
def uptimeSpecRender (elapsed : ℤ) : String :=
  let e := max elapsed 0
  let days := e / 86400
  let hours := e % 86400 / 3600
  let minutes := e % 3600 / 60
  if days > 0 then s!"{days}d {hours}h {minutes}m"
  else if hours > 0 then s!"{hours}h {minutes}m"
  else s!"{minutes}m"

/-- The local `bar` string of `SystemMonitor.create_progress_bar`
(lines 183-186): `"#" * filled + "-" * (width - filled)` with
`filled = int(width * percentage / 100)`; a Python string repeated a
negative number of times is empty, hence `Int.toNat`. -/
def progress_bar_str (percentage : ℚ) (width : ℤ) : String :=
  let filled := pyTrunc ((width : ℚ) * percentage / 100)
  String.mk (List.replicate filled.toNat '#' ++ List.replicate (width - filled).toNat '-')

/-- `SystemMonitor.create_progress_bar` (lines 183-196): colored markup
around the bar plus the percentage with one decimal. -/
def create_progress_bar (percentage : ℚ) (width : ℤ) : String :=
  let bar := progress_bar_str percentage width
  let color := if percentage < 50 then "green" else if percentage < 80 then "yellow" else "red"
  s!"[{color}]{bar}[/{color}] {fmtOneDec percentage}%"

/-- Number of filled cells of a rendered bar. -/
def countFilled (s : String) : ℕ := s.data.count '#'

/-- Exceptions `psutil.disk_usage` may raise that line 165 catches. -/
inductive ReadErr where
  | permission
  | os
deriving DecidableEq

/-- Result of a successful `psutil.disk_usage(mountpoint)` call. -/
structure Usage where
  total : ℕ
  used : ℕ
  free : ℕ
deriving DecidableEq

/-- One element of `psutil.disk_partitions()` together with the outcome of
reading its usage. -/
structure PartitionData where
  device : String
  mountpoint : String
  usage : Except ReadErr Usage

/-- One record appended to `disks` by `get_disk_info`. -/
structure DiskEntry where
  device : String
  mountpoint : String
  total : ℕ
  used : ℕ
  free : ℕ
  percent : ℚ
deriving DecidableEq

/-- Exceptions escaping `get_disk_info`: `ZeroDivisionError` from
`(usage.used / usage.total) * 100` is not an `OSError`, so line 165 does
not catch it. -/
inductive PyErr where
  | zeroDivision
deriving DecidableEq

/-- The entry built from a partition whose usage read succeeded
(lines 157-164). -/
def disk_entry (p : PartitionData) (u : Usage) : DiskEntry :=
  ⟨p.device, p.mountpoint, u.total, u.used, u.free, ((u.used : ℚ) / (u.total : ℚ)) * 100⟩

/-- `SystemMonitor.get_disk_info` (lines 151-167): iterate the partitions,
skip a mount whose usage read raised `PermissionError`/`OSError`, abort with
`ZeroDivisionError` when a successful read reports `total = 0`. -/
def get_disk_info : List PartitionData → Except PyErr (List DiskEntry)
  | [] => .ok []
  | p :: ps =>
    match p.usage with
    | .error _ => get_disk_info ps
    | .ok u =>
      if u.total = 0 then .error .zeroDivision
      else
        match get_disk_info ps with
        | .ok ds => .ok (disk_entry p u :: ds)
        | .error e => .error e

/-- The success entry of a partition, if any: what the claimed skip-only
behaviour would collect. -/
def disk_entry_of (p : PartitionData) : Option DiskEntry :=
  match p.usage with
  | .ok u => some (disk_entry p u)
  | .error _ => none

/-- `true` when a successful usage read of this partition reports a
nonzero total (vacuously `true` for a failed read). -/
def usage_ok_nonzero (p : PartitionData) : Bool :=
  match p.usage with
  | .ok u => u.total != 0
  | .error _ => true

/-- `true` when the usage read succeeded with `total = 0`. -/
def usage_ok_zero (p : PartitionData) : Bool :=
  match p.usage with
  | .ok u => u.total == 0
  | .error _ => false

/-- Outcomes of the impure reads performed by
`SystemMonitor.get_system_info`; `now` is the clock value used by the
fallback `datetime.now()`. -/
structure SysReads where
  system : Except Unit String
  osRelease : Except Unit String
  release : Except Unit String
  node : Except Unit String
  cpuCount : Except Unit ℕ
  totalMemory : Except Unit ℕ
  bootTime : Except Unit ℤ
  now : ℤ

/-- The dictionary returned by `get_system_info`. -/
structure SystemInfo where
  os : String
  kernel : String
  hostname : String
  cpu_count : ℕ
  total_memory : ℕ
  boot_time : ℤ
  is_cachyos : Bool
deriving DecidableEq

/-- The fallback dictionary of lines 91-99. -/
def fallback_info (now : ℤ) : SystemInfo :=
  ⟨"Unknown", "Unknown", "localhost", 1, 0, now, false⟩

/-- `leadsWith needle hay`: `needle` is an initial segment of `hay`. -/
def leadsWith : List Char → List Char → Bool
  | [], _ => true
  | _ :: _, [] => false
  | a :: as, b :: bs => a == b && leadsWith as bs

/-- `hasSub needle hay`: `needle` occurs contiguously inside `hay`
(Python's `in` on strings). -/
def hasSub (needle : List Char) : List Char → Bool
  | [] => needle.isEmpty
  | b :: rest => leadsWith needle (b :: rest) || hasSub needle rest

/-- The case-insensitive marker test of line 75. -/
def has_cachyos_marker (content : String) : Bool :=
  hasSub "cachyos".data content.toLower.data

/-- `SystemMonitor.get_system_info` (lines 64-99).  The inner
`try`/`except` around the os-release file (lines 72-79) only sets
`is_cachyos`/`os_name`; any other failure hits the outer `except` and
returns the full fallback dictionary. -/
def get_system_info (r : SysReads) : SystemInfo :=
  match r.system with
  | .error _ => fallback_info r.now
  | .ok osName0 =>
    let cachy : Bool × String :=
      match r.osRelease with
      | .ok content =>
        if has_cachyos_marker content then (true, "CachyOS Linux") else (false, osName0)
      | .error _ => (false, osName0)
    match r.release, r.node, r.cpuCount, r.totalMemory, r.bootTime with
    | .ok k, .ok h, .ok c, .ok m, .ok b =>
      ⟨cachy.2, k, h, c, m, b, cachy.1⟩
    | _, _, _, _, _ => fallback_info r.now

/-- JSON values as far as the config file needs them. -/
inductive Json where
  | num : ℤ → Json
  | str : String → Json
  | obj : List (String × Json) → Json

/-- Key lookup in a JSON object. -/
def Json.lookup : Json → String → Option Json
  | .obj kvs, k => kvs.lookup k
  | _, _ => none

/-- State of `config.json`: absent, present but unparsable, or parsed. -/
inductive ConfigFile where
  | absent
  | malformed
  | wellFormed (j : Json)

/-- The `default_config` dictionary of lines 42-49, as the JSON value
`json.dump` writes and `json.load` reads back. -/
def default_config_json : Json :=
  .obj [("refresh_interval", .num 2),
    ("alerts", .obj [("cpu_threshold", .num 80),
      ("ram_threshold", .num 85),
      ("disk_threshold", .num 90)])]

/-- `SystemMonitor.load_config` (lines 40-62) as a state transformer on the
config file: an existing parsable file is returned as-is; otherwise the
default config is written and returned. -/
def load_config : ConfigFile → Json × ConfigFile
  | .wellFormed j => (j, .wellFormed j)
  | .absent => (default_config_json, .wellFormed default_config_json)
  | .malformed => (default_config_json, .wellFormed default_config_json)

/-- Configuration values as the spec describes them (`alerts` section). -/
structure Config where
  refresh_interval : ℤ
  cpu_threshold : ℚ
  ram_threshold : ℚ
  disk_threshold : ℚ
deriving DecidableEq

/-- The alert message of line 315. -/
def cpu_alert_msg (cpu : ℚ) : String :=
  "CPU usage high (" ++ fmtOneDec cpu ++ "% > 80%)"

/-- The alert message of line 317. -/
def mem_alert_msg (mem : ℚ) : String :=
  "Memory usage high (" ++ fmtOneDec mem ++ "% > 85%)"

/-- The alert evaluation of `generate_dashboard` (lines 312-317).  The
loaded configuration and the disk readings are in scope there but the
comparisons use the literal thresholds `80` and `85`; the parameters are
kept to state the claims about them. -/
def dashboard_alerts (_config : Config) (cpu_usage mem_percent : ℚ)
    (_disks : List DiskEntry) : List String :=
  let alerts : List String := []
  let alerts := if cpu_usage > 80 then alerts ++ [cpu_alert_msg cpu_usage] else alerts
  let alerts := if mem_percent > 85 then alerts ++ [mem_alert_msg mem_percent] else alerts
  alerts

end HealthDashboard

namespace HealthDashboard

/-! Helper lemmas shared by the claim theorems. -/

/-- Rounding an integer-valued rational is the identity. -/
theorem rte_intCast (m : ℤ) : rte ((m : ℤ) : ℚ) = m := by
  simp [rte]

/-- Evaluation lemma for `fmtOneDec` when ten times the input is an
integer. -/
theorem fmtOneDec_of_mul_ten (m : ℤ) {q : ℚ} (h : q * 10 = (m : ℚ)) :
    fmtOneDec q = (if m < 0 then "-" else "") ++ toString (m.natAbs / 10) ++ "." ++
      toString (m.natAbs % 10) := by
  have hr : rte (q * 10) = m := by rw [h]; exact rte_intCast m
  simp [fmtOneDec, hr]

/-- Evaluation lemma for `pyTrunc` on an integer-valued rational. -/
theorem pyTrunc_of_cast (m : ℤ) {q : ℚ} (h : q = (m : ℚ)) : pyTrunc q = m := by
  subst h
  by_cases hm : 0 ≤ m
  · rw [pyTrunc, if_pos (by exact_mod_cast hm)]; simp
  · rw [pyTrunc, if_neg (by exact_mod_cast hm)]
    have h2 : ((-m : ℤ) : ℚ) = -(m : ℚ) := by push_cast; ring
    rw [← h2, Int.floor_intCast]
    ring

/-- String append is associative. -/
theorem str_append_assoc (a b c : String) : a ++ b ++ c = a ++ (b ++ c) := by
  apply String.ext
  simp [String.data_append, List.append_assoc]

/-- The CPU alert message starts with the letter C. -/
theorem head_of_cpu_msg (c : ℚ) : (cpu_alert_msg c).data.head? = some 'C' := by
  rw [cpu_alert_msg, String.data_append, String.data_append]
  rfl

/-- The memory alert message starts with the letter M. -/
theorem head_of_mem_msg (m : ℚ) : (mem_alert_msg m).data.head? = some 'M' := by
  rw [mem_alert_msg, String.data_append, String.data_append]
  rfl

/-- A CPU alert message is never equal to a memory alert message. -/
theorem cpu_msg_ne_mem_msg (c m : ℚ) : cpu_alert_msg c ≠ mem_alert_msg m := by
  intro h
  have h2 := head_of_cpu_msg c
  rw [h, head_of_mem_msg] at h2
  simp at h2

/-- A list leads with itself before any suffix. -/
theorem leadsWith_self_append (l t : List Char) : leadsWith l (l ++ t) = true := by
  induction l with
  | nil => rfl
  | cons a as ih => simp [leadsWith, ih]

/-- A list occurs in itself followed by any suffix. -/
theorem hasSub_self_append (l t : List Char) : hasSub l (l ++ t) = true := by
  cases l with
  | nil => cases t <;> simp [hasSub, List.isEmpty, leadsWith]
  | cons a as =>
    simp only [hasSub, Bool.or_eq_true]
    exact Or.inl (leadsWith_self_append (a :: as) t)

/-- Occurrence is preserved by prepending one element. -/
theorem hasSub_cons (n : List Char) (b : Char) (hay : List Char) (h : hasSub n hay = true) :
    hasSub n (b :: hay) = true := by
  simp [hasSub, h]

/-- Occurrence is preserved by prepending any list. -/
theorem hasSub_append_left (n pre hay : List Char) (h : hasSub n hay = true) :
    hasSub n (pre ++ hay) = true := by
  induction pre with
  | nil => simpa using h
  | cons b bs ih => simpa using hasSub_cons n b (bs ++ hay) ih

/-- Characterization of `format_bytes`: it renders the input scaled into the
unit of index `unitIdx`, that index is the smallest one whose scaled value
stays below 1024, and index 5 (PB) is terminal. -/
theorem fb_spec (n : ℚ) :
    format_bytes n = fmtOneDec (n / 1024 ^ unitIdx n) ++ " " ++ unitName (unitIdx n)
    ∧ (n < 1024 ^ (unitIdx n + 1) ∨ unitIdx n = 5)
    ∧ (∀ k, k < unitIdx n → 1024 ^ (k + 1) ≤ n) := by
  have key : ∀ j : ℕ, n / 1024 ^ j < 1024 ↔ n < 1024 ^ (j + 1) := by
    intro j
    rw [div_lt_iff₀ (by positivity), ← pow_succ']
  have step : ∀ j : ℕ, n / 1024 ^ j / 1024 = n / 1024 ^ (j + 1) := by
    intro j
    rw [div_div, ← pow_succ]
  have e1 : n / 1024 = n / 1024 ^ 1 := by rw [pow_one]
  by_cases h0 : n < 1024 ^ 1
  · have hu : unitIdx n = 0 := by
      simp only [unitIdx]
      rw [if_pos (by simpa using h0)]
    rw [hu]
    refine ⟨?_, Or.inl (by simpa using h0), fun k hk => by omega⟩
    simp only [format_bytes, fb_go, pow_zero, div_one, unitName]
    rw [if_pos (by simpa using h0)]
  · by_cases h1 : n < 1024 ^ 2
    · have hu : unitIdx n = 1 := by
        simp only [unitIdx]
        rw [if_neg (by simpa using h0), if_pos h1]
      rw [hu]
      refine ⟨?_, Or.inl h1, ?_⟩
      · simp only [format_bytes, fb_go, unitName]
        rw [if_neg (by simpa using h0), e1, if_pos ((key 1).mpr h1)]
      · intro k hk
        have hk0 : k = 0 := by omega
        subst hk0
        simpa using le_of_not_lt h0
    · by_cases h2 : n < 1024 ^ 3
      · have hu : unitIdx n = 2 := by
          simp only [unitIdx]
          rw [if_neg (by simpa using h0), if_neg h1, if_pos h2]
        rw [hu]
        refine ⟨?_, Or.inl h2, ?_⟩
        · simp only [format_bytes, fb_go, unitName]
          rw [if_neg (by simpa using h0), e1, if_neg (by rw [key 1]; exact h1), step 1,
            if_pos ((key 2).mpr h2)]
        · intro k hk
          interval_cases k
          · simpa using le_of_not_lt h0
          · simpa using le_of_not_lt h1
      · by_cases h3 : n < 1024 ^ 4
        · have hu : unitIdx n = 3 := by
            simp only [unitIdx]
            rw [if_neg (by simpa using h0), if_neg h1, if_neg h2, if_pos h3]
          rw [hu]
          refine ⟨?_, Or.inl h3, ?_⟩
          · simp only [format_bytes, fb_go, unitName]
            rw [if_neg (by simpa using h0), e1, if_neg (by rw [key 1]; exact h1), step 1,
              if_neg (by rw [key 2]; exact h2), step 2, if_pos ((key 3).mpr h3)]
          · intro k hk
            interval_cases k
            · simpa using le_of_not_lt h0
            · simpa using le_of_not_lt h1
            · simpa using le_of_not_lt h2
        · by_cases h4 : n < 1024 ^ 5
          · have hu : unitIdx n = 4 := by
              simp only [unitIdx]
              rw [if_neg (by simpa using h0), if_neg h1, if_neg h2, if_neg h3, if_pos h4]
            rw [hu]
            refine ⟨?_, Or.inl h4, ?_⟩
            · simp only [format_bytes, fb_go, unitName]
              rw [if_neg (by simpa using h0), e1, if_neg (by rw [key 1]; exact h1), step 1,
                if_neg (by rw [key 2]; exact h2), step 2, if_neg (by rw [key 3]; exact h3),
                step 3, if_pos ((key 4).mpr h4)]
            · intro k hk
              interval_cases k
              · simpa using le_of_not_lt h0
              · simpa using le_of_not_lt h1
              · simpa using le_of_not_lt h2
              · simpa using le_of_not_lt h3
          · have hu : unitIdx n = 5 := by
              simp only [unitIdx]
              rw [if_neg (by simpa using h0), if_neg h1, if_neg h2, if_neg h3, if_neg h4]
            rw [hu]
            refine ⟨?_, Or.inr rfl, ?_⟩
            · simp only [format_bytes, fb_go, unitName]
              rw [if_neg (by simpa using h0), e1, if_neg (by rw [key 1]; exact h1), step 1,
                if_neg (by rw [key 2]; exact h2), step 2, if_neg (by rw [key 3]; exact h3),
                step 3, if_neg (by rw [key 4]; exact h4), step 4, str_append_assoc]
              rfl
            · intro k hk
              interval_cases k
              · simpa using le_of_not_lt h0
              · simpa using le_of_not_lt h1
              · simpa using le_of_not_lt h2
              · simpa using le_of_not_lt h3
              · simpa using le_of_not_lt h4

/-- The filled-cell count of the bar. -/
theorem countFilled_bar (p : ℚ) (w : ℤ) :
    countFilled (progress_bar_str p w) = (pyTrunc ((w : ℚ) * p / 100)).toNat := by
  simp [progress_bar_str, countFilled, List.count_append, List.count_replicate]

/-- The total cell count of the bar. -/
theorem length_bar (p : ℚ) (w : ℤ) :
    (progress_bar_str p w).length =
      (pyTrunc ((w : ℚ) * p / 100)).toNat + (w - pyTrunc ((w : ℚ) * p / 100)).toNat := by
  simp [progress_bar_str, String.length]

end HealthDashboard

namespace HealthDashboard

/-! Concrete inputs used by counterexamples and witnesses. -/

/-- The default configuration values of lines 42-49. -/
def cfg_default : Config := ⟨2, 80, 85, 90⟩

/-- A partition whose usage read succeeds with a nonzero total. -/
def pRoot : PartitionData := ⟨"/dev/sda1", "/", Except.ok ⟨100, 50, 50⟩⟩

/-- A partition whose usage read raises PermissionError. -/
def pDenied : PartitionData := ⟨"/dev/sda2", "/boot", Except.error ReadErr.permission⟩

/-- A second partition whose usage read succeeds with a nonzero total. -/
def pHome : PartitionData := ⟨"/dev/sda3", "/home", Except.ok ⟨200, 150, 50⟩⟩

/-- A partition whose usage read succeeds but reports a zero total. -/
def pZero : PartitionData := ⟨"/dev/sdb1", "/mnt/weird", Except.ok ⟨0, 0, 0⟩⟩

/-- A disk entry at 95 percent usage, above the configured disk threshold. -/
def d95 : DiskEntry := ⟨"/dev/sda1", "/", 100, 95, 5, 95⟩

/-- Reads where everything succeeds except the os-release file. -/
def c6reads : SysReads :=
  ⟨Except.ok "Linux", Except.error (), Except.ok "6.1.0", Except.ok "myhost",
    Except.ok 8, Except.ok 16000, Except.ok 1700, 99⟩

/-- Reads where the very first platform call fails. -/
def c6failReads : SysReads :=
  ⟨Except.error (), Except.ok "x", Except.ok "k", Except.ok "hn",
    Except.ok 1, Except.ok 2, Except.ok 3, 7⟩

/-- Reads where the platform calls succeed and the os-release read fails. -/
def c6okReads : SysReads :=
  ⟨Except.ok "L", Except.error (), Except.ok "k", Except.ok "hn",
    Except.ok 1, Except.ok 2, Except.ok 3, 7⟩

/-- Claim C1, counterexample: with a configuration whose cpu_threshold is 90
and a CPU reading of 85, the dashboard still emits the CPU alert (the code
compares against the literal 80, not against the configuration), so the
claimed equivalence with the configured threshold fails. -/
theorem C1_counterexample :
    cpu_alert_msg 85 ∈ dashboard_alerts ⟨2, 90, 85, 90⟩ 85 0 []
    ∧ ¬((85 : ℚ) > (Config.mk 2 90 85 90).cpu_threshold) := by
  constructor
  · exact List.mem_singleton_self (cpu_alert_msg 85)
  · norm_num

/-- Claim C1, amended: for every configuration and snapshot the CPU alert is
present iff the CPU reading is strictly above the literal 80 and the memory
alert is present iff the memory reading is strictly above the literal 85 (the
configured thresholds are never consulted); equality produces no alert, and
each message contains the measured value and its hardcoded threshold. -/
theorem C1_alerts_amended : ∀ (cfg : Config) (cpu mem : ℚ) (disks : List DiskEntry),
    (cpu_alert_msg cpu ∈ dashboard_alerts cfg cpu mem disks ↔ cpu > 80)
    ∧ (mem_alert_msg mem ∈ dashboard_alerts cfg cpu mem disks ↔ mem > 85)
    ∧ hasSub (fmtOneDec cpu).data (cpu_alert_msg cpu).data = true
    ∧ hasSub "80".data (cpu_alert_msg cpu).data = true
    ∧ hasSub (fmtOneDec mem).data (mem_alert_msg mem).data = true
    ∧ hasSub "85".data (mem_alert_msg mem).data = true := by
  intro cfg cpu mem disks
  have hne := cpu_msg_ne_mem_msg cpu mem
  refine ⟨?_, ?_, ?_, ?_, ?_, ?_⟩
  · by_cases hc : cpu > 80 <;> by_cases hm : mem > 85 <;>
      simp [dashboard_alerts, hc, hm, hne]
  · by_cases hc : cpu > 80 <;> by_cases hm : mem > 85 <;>
      simp [dashboard_alerts, hc, hm, hne.symm]
  · rw [cpu_alert_msg, String.data_append, String.data_append, List.append_assoc]
    exact hasSub_append_left _ _ _ (hasSub_self_append _ _)
  · rw [cpu_alert_msg, String.data_append, String.data_append]
    apply hasSub_append_left
    decide
  · rw [mem_alert_msg, String.data_append, String.data_append, List.append_assoc]
    exact hasSub_append_left _ _ _ (hasSub_self_append _ _)
  · rw [mem_alert_msg, String.data_append, String.data_append]
    apply hasSub_append_left
    decide

/-- Claim C2, counterexample: among three mounts, one fails with
PermissionError and one succeeds with a zero total; the claim predicts an
error-free result listing the two successful mounts, but the whole call
aborts with ZeroDivisionError. -/
theorem C2_counterexample :
    pDenied.usage = Except.error ReadErr.permission
    ∧ pZero.usage = Except.ok ⟨0, 0, 0⟩
    ∧ get_disk_info [pRoot, pDenied, pZero] = Except.error PyErr.zeroDivision :=
  ⟨rfl, rfl, rfl⟩

/-- Claim C2, amended: for every partition list in which each successful
usage read reports a nonzero total, get_disk_info returns exactly the
entries of the successful mounts in provider order, skipping the failed
ones, and raises no error. -/
theorem C2_disk_skip_amended : ∀ parts : List PartitionData,
    parts.all usage_ok_nonzero = true →
    get_disk_info parts = Except.ok (parts.filterMap disk_entry_of) := by
  intro parts h
  induction parts with
  | nil => rfl
  | cons p ps ih =>
    rw [List.all_cons, Bool.and_eq_true] at h
    obtain ⟨hp, hps⟩ := h
    rw [get_disk_info, List.filterMap_cons]
    cases hu : p.usage with
    | error e => simp only [disk_entry_of, hu]; exact ih hps
    | ok u =>
      have ht : ¬u.total = 0 := by
        simp [usage_ok_nonzero, hu] at hp
        exact_mod_cast fun h2 => hp (by simp [h2])
      dsimp only
      rw [if_neg ht, ih hps]
      simp [disk_entry_of, hu]

/-- Claim C2, witness: one permission failure among three mounts with
nonzero totals yields exactly the two successful entries. -/
theorem C2_witness :
    get_disk_info [pRoot, pDenied, pHome] =
      Except.ok ([pRoot, pDenied, pHome].filterMap disk_entry_of)
    ∧ ([pRoot, pDenied, pHome].filterMap disk_entry_of).length = 2 := by
  constructor
  · exact C2_disk_skip_amended [pRoot, pDenied, pHome] (by decide)
  · rfl

/-- Claim C3: whenever some usage read succeeds with a zero total, the whole
get_disk_info call fails with ZeroDivisionError instead of skipping the
mount or returning a snapshot. -/
theorem C3_zero_total_error : ∀ parts : List PartitionData,
    parts.any usage_ok_zero = true →
    get_disk_info parts = Except.error PyErr.zeroDivision := by
  intro parts h
  induction parts with
  | nil => simp at h
  | cons p ps ih =>
    rw [List.any_cons, Bool.or_eq_true] at h
    rw [get_disk_info]
    cases hu : p.usage with
    | error e =>
      apply ih
      rcases h with h | h
      · simp [usage_ok_zero, hu] at h
      · exact h
    | ok u =>
      dsimp only
      by_cases ht : u.total = 0
      · rw [if_pos ht]
      · rw [if_neg ht]
        have hps : ps.any usage_ok_zero = true := by
          rcases h with h | h
          · simp [usage_ok_zero, hu, ht] at h
          · exact h
        rw [ih hps]

/-- Claim C3, witness: a healthy mount followed by a zero-total mount makes
the whole call fail. -/
theorem C3_witness : get_disk_info [pRoot, pZero] = Except.error PyErr.zeroDivision :=
  C3_zero_total_error [pRoot, pZero] (by decide)

/-- Claim C4, counterexample: the claim says the fill count of
progressBar(150, 10) is clamped to 10 and the bar always has exactly width
cells; in fact the bar has 15 filled cells and length 15. -/
theorem C4_counterexample :
    countFilled (progress_bar_str 150 10) = 15 ∧ (progress_bar_str 150 10).length ≠ 10 := by
  have h : pyTrunc (((10 : ℤ) : ℚ) * (150 : ℚ) / 100) = 15 :=
    pyTrunc_of_cast 15 (by push_cast; norm_num)
  constructor
  · rw [countFilled_bar 150 10, h]
    rfl
  · rw [length_bar 150 10, h]
    decide

/-- Claim C4, amended: no clamping happens; the filled-cell count is the
Python truncation toward zero of width times percent over 100 (clipped at 0
by string repetition), the bar length is that count plus the count of
unfilled cells (each clipped at 0), and it can differ from width:
progressBar(150, 10) has 15 filled cells, progressBar(-5, 10) is 10
unfilled cells, and progressBar(-150, 10) has 25 cells. -/
theorem C4_progress_bar_amended :
    (∀ (p : ℚ) (w : ℤ),
      countFilled (progress_bar_str p w) = (pyTrunc ((w : ℚ) * p / 100)).toNat
      ∧ (progress_bar_str p w).length =
        (pyTrunc ((w : ℚ) * p / 100)).toNat + (w - pyTrunc ((w : ℚ) * p / 100)).toNat)
    ∧ countFilled (progress_bar_str 150 10) = 15
    ∧ progress_bar_str (-5) 10 = "----------"
    ∧ (progress_bar_str (-150) 10).length = 25 := by
  have h1 : pyTrunc (((10 : ℤ) : ℚ) * (150 : ℚ) / 100) = 15 :=
    pyTrunc_of_cast 15 (by push_cast; norm_num)
  have h2 : pyTrunc (((10 : ℤ) : ℚ) * (-5 : ℚ) / 100) = 0 := by norm_num [pyTrunc]
  have h3 : pyTrunc (((10 : ℤ) : ℚ) * (-150 : ℚ) / 100) = -15 :=
    pyTrunc_of_cast (-15) (by push_cast; norm_num)
  refine ⟨fun p w => ⟨countFilled_bar p w, length_bar p w⟩, ?_, ?_, ?_⟩
  · rw [countFilled_bar 150 10, h1]
    rfl
  · rw [progress_bar_str, h2]
    rfl
  · rw [length_bar (-150) 10, h3]
    rfl

end HealthDashboard

namespace HealthDashboard

/-- Claim C5, counterexample: a boot time 45 seconds in the future renders
as "23h 59m" (the Python timedelta keeps a hidden negative day count and a
nonnegative remainder), while the claim demands "0m". -/
theorem C5_counterexample :
    format_uptime 45 0 = "23h 59m"
    ∧ uptimeSpecRender (0 - 45) = "0m"
    ∧ format_uptime 45 0 ≠ uptimeSpecRender (0 - 45) :=
  ⟨by decide, by decide, by decide⟩

/-- Claim C5, amended: for a nonnegative elapsed duration format_uptime
renders exactly the claimed days/hours/minutes format (days form when
days > 0, hours form when hours > 0, minutes otherwise, never seconds); a
negative elapsed duration is not treated as zero but rendered from the
floor-normalized decomposition, e.g. minus 45 seconds gives "23h 59m". -/
theorem C5_uptime_amended :
    (∀ boot now : ℤ, 0 ≤ now - boot → format_uptime boot now = uptimeSpecRender (now - boot))
    ∧ format_uptime 0 5400 = "1h 30m"
    ∧ format_uptime 0 183900 = "2d 3h 5m"
    ∧ format_uptime 0 45 = "0m"
    ∧ format_uptime 45 0 = "23h 59m" := by
  refine ⟨?_, by decide, by decide, by decide, by decide⟩
  intro boot now h
  have hmax : max (now - boot) 0 = now - boot := max_eq_left h
  have hmod : (now - boot) % 86400 % 3600 = (now - boot) % 3600 :=
    Int.emod_emod_of_dvd _ (by norm_num)
  simp only [format_uptime, uptimeSpecRender, hmax, hmod]

/-- Claim C5, witness: 90 minutes of uptime renders identically under the
code and the claimed formula. -/
theorem C5_witness : format_uptime 100 5500 = uptimeSpecRender (5500 - 100) :=
  C5_uptime_amended.1 100 5500 (by decide)

/-- Claim C6, counterexample: when only the os-release file read fails, the
resulting identity keeps all successfully read fields (os "Linux", kernel,
hostname, counts, boot time) with is_cachyos false, mixing read values with
a fallback instead of degrading every field. -/
theorem C6_counterexample :
    c6reads.osRelease = Except.error ()
    ∧ get_system_info c6reads = ⟨"Linux", "6.1.0", "myhost", 8, 16000, 1700, false⟩
    ∧ get_system_info c6reads ≠ fallback_info c6reads.now :=
  ⟨rfl, rfl, by decide⟩

/-- Claim C6, amended: the all-or-nothing fallback holds for the platform
and psutil reads: if reading the OS name, kernel, hostname, CPU count,
total memory or boot time fails, every field of the result is the
documented fallback; a failure of the os-release read alone is handled
locally, keeping all other read values and setting is_cachyos to false. -/
theorem C6_identity_amended (r : SysReads) :
    ((r.system = Except.error () ∨ r.release = Except.error () ∨ r.node = Except.error ()
      ∨ r.cpuCount = Except.error () ∨ r.totalMemory = Except.error ()
      ∨ r.bootTime = Except.error ()) →
      get_system_info r = fallback_info r.now)
    ∧ (∀ (os k hn : String) (c m : ℕ) (b : ℤ), r.system = Except.ok os →
        r.osRelease = Except.error () → r.release = Except.ok k → r.node = Except.ok hn →
        r.cpuCount = Except.ok c → r.totalMemory = Except.ok m → r.bootTime = Except.ok b →
        get_system_info r = ⟨os, k, hn, c, m, b, false⟩) := by
  obtain ⟨s, orel, rel, nod, cc, tm, bt, nw⟩ := r
  constructor
  · intro h
    cases s with
    | error u => cases u; rfl
    | ok s0 =>
      rcases h with h | h | h | h | h | h
      · simp at h
      all_goals (cases h; cases orel <;> (try cases rel) <;> (try cases nod) <;>
        (try cases cc) <;> (try cases tm) <;> (try cases bt) <;> rfl)
  · intro os k hn c m b h1 h2 h3 h4 h5 h6 h7
    cases h1; cases h2; cases h3; cases h4; cases h5; cases h6; cases h7
    rfl

/-- Claim C6, witness: a failing first platform read degrades everything to
the fallback, and a failing os-release read alone keeps the read fields. -/
theorem C6_witness :
    get_system_info c6failReads = fallback_info 7
    ∧ get_system_info c6okReads = ⟨"L", "k", "hn", 1, 2, 3, false⟩ :=
  ⟨(C6_identity_amended c6failReads).1 (Or.inl rfl),
    (C6_identity_amended c6okReads).2 "L" "k" "hn" 1 2 3 rfl rfl rfl rfl rfl rfl rfl⟩

/-- Claim C7, counterexample: the configuration produced by writing and
re-loading the defaults has no display section at all, hence no
show-processes flag and no process count 10, contradicting the claimed
content of the documented defaults. -/
theorem C7_counterexample :
    (load_config ConfigFile.absent).1.lookup "display" = none
    ∧ Option.bind ((load_config ConfigFile.absent).1.lookup "display")
        (fun j => j.lookup "process_count") = none :=
  ⟨rfl, rfl⟩

/-- Claim C7, amended: writing the default configuration and loading it back
yields exactly the written defaults: refresh interval 2 and alert
thresholds 80, 85 and 90; the defaults contain no display options. -/
theorem C7_config_roundtrip_amended :
    load_config ConfigFile.absent = (default_config_json, ConfigFile.wellFormed default_config_json)
    ∧ load_config (ConfigFile.wellFormed default_config_json) =
      (default_config_json, ConfigFile.wellFormed default_config_json)
    ∧ default_config_json.lookup "refresh_interval" = some (Json.num 2)
    ∧ Option.bind (default_config_json.lookup "alerts")
        (fun j => j.lookup "cpu_threshold") = some (Json.num 80)
    ∧ Option.bind (default_config_json.lookup "alerts")
        (fun j => j.lookup "ram_threshold") = some (Json.num 85)
    ∧ Option.bind (default_config_json.lookup "alerts")
        (fun j => j.lookup "disk_threshold") = some (Json.num 90)
    ∧ default_config_json.lookup "display" = none :=
  ⟨rfl, rfl, rfl, rfl, rfl, rfl, rfl⟩

/-- Claim C8: format_bytes renders every input in the smallest unit among
B, KB, MB, GB and TB in which the scaled value stays below 1024, falling
through to the terminal PB unit, with one decimal digit and the unit
suffix; including the four concrete examples of the spec. -/
theorem C8_format_bytes_units :
    (∀ n : ℚ,
      format_bytes n = fmtOneDec (n / 1024 ^ unitIdx n) ++ " " ++ unitName (unitIdx n)
      ∧ (n < 1024 ^ (unitIdx n + 1) ∨ unitIdx n = 5)
      ∧ (∀ k, k < unitIdx n → 1024 ^ (k + 1) ≤ n))
    ∧ format_bytes 0 = "0.0 B"
    ∧ format_bytes 1023 = "1023.0 B"
    ∧ format_bytes 1024 = "1.0 KB"
    ∧ format_bytes 1536 = "1.5 KB" := by
  refine ⟨fb_spec, ?_, ?_, ?_, ?_⟩
  · simp only [format_bytes, fb_go]
    rw [if_pos (by norm_num : (0 : ℚ) < 1024), fmtOneDec_of_mul_ten 0 (by norm_num)]
    rfl
  · simp only [format_bytes, fb_go]
    rw [if_pos (by norm_num : (1023 : ℚ) < 1024), fmtOneDec_of_mul_ten 10230 (by norm_num)]
    rfl
  · simp only [format_bytes, fb_go]
    rw [if_neg (by norm_num : ¬(1024 : ℚ) < 1024),
      if_pos (by norm_num : (1024 : ℚ) / 1024 < 1024), fmtOneDec_of_mul_ten 10 (by norm_num)]
    rfl
  · simp only [format_bytes, fb_go]
    rw [if_neg (by norm_num : ¬(1536 : ℚ) < 1024),
      if_pos (by norm_num : (1536 : ℚ) / 1024 < 1024), fmtOneDec_of_mul_ten 15 (by norm_num)]
    rfl

/-- Claim C8, witness: at one mebibyte the chosen unit index is 2 and the
smaller unit B is indeed ruled out. -/
theorem C8_witness :
    unitIdx (1024 * 1024 : ℚ) = 2 ∧ (1024 : ℚ) ^ (0 + 1) ≤ 1024 * 1024 :=
  ⟨by norm_num [unitIdx], (C8_format_bytes_units.1 (1024 * 1024)).2.2 0 (by norm_num [unitIdx])⟩

/-- Claim C9, counterexample: a mount at 95 percent usage with the default
disk threshold 90 produces no disk alert; the alert list is empty. -/
theorem C9_counterexample :
    dashboard_alerts cfg_default 10 20 [d95] = []
    ∧ d95.percent > cfg_default.disk_threshold := by
  constructor
  · rfl
  · show (95 : ℚ) > 90
    norm_num

/-- Claim C9, amended: the alert set never contains disk alerts: every
emitted alert is the CPU or the memory message, and the alert list does not
depend on the disk readings at all (the configured disk threshold is never
evaluated). -/
theorem C9_no_disk_alerts_amended : ∀ (cfg : Config) (cpu mem : ℚ) (disks : List DiskEntry),
    (∀ s ∈ dashboard_alerts cfg cpu mem disks, s = cpu_alert_msg cpu ∨ s = mem_alert_msg mem)
    ∧ dashboard_alerts cfg cpu mem disks = dashboard_alerts cfg cpu mem [] := by
  intro cfg cpu mem disks
  constructor
  · intro s hs
    by_cases hc : cpu > 80 <;> by_cases hm : mem > 85 <;>
      simp [dashboard_alerts, hc, hm] at hs <;> tauto
  · rfl

/-- Claim C9, witness: at CPU 90 the only alert is the CPU message. -/
theorem C9_witness :
    cpu_alert_msg 90 = cpu_alert_msg 90 ∨ cpu_alert_msg 90 = mem_alert_msg 20 :=
  (C9_no_disk_alerts_amended cfg_default 90 20 [d95]).1 (cpu_alert_msg 90)
    (List.mem_singleton_self _)

/-- Claim C10, counterexample: two calls of format_uptime with the same boot
time argument but different clock readings return different strings, so the
function does not depend on its boot-time argument alone. -/
theorem C10_counterexample :
    format_uptime 0 3600 = "1h 0m"
    ∧ format_uptime 0 7200 = "2h 0m"
    ∧ format_uptime 0 3600 ≠ format_uptime 0 7200 :=
  ⟨by decide, by decide, by decide⟩

/-- Claim C10, amended: format_bytes and create_progress_bar are
deterministic functions of their arguments, and format_uptime is
deterministic in the pair of boot time and the clock value read during the
call (but not in the boot time alone). -/
theorem C10_determinism_amended :
    (∀ a b : ℚ, a = b → format_bytes a = format_bytes b)
    ∧ (∀ (p q : ℚ) (v w : ℤ), p = q → v = w → create_progress_bar p v = create_progress_bar q w)
    ∧ (∀ b1 t1 b2 t2 : ℤ, b1 = b2 → t1 = t2 → format_uptime b1 t1 = format_uptime b2 t2) :=
  ⟨fun a b h => by rw [h], fun p q v w h1 h2 => by rw [h1, h2],
    fun b1 t1 b2 t2 h1 h2 => by rw [h1, h2]⟩

/-- Claim C10, witness: repeated calls on equal concrete inputs agree. -/
theorem C10_witness :
    format_bytes 1024 = format_bytes 1024
    ∧ create_progress_bar 50 10 = create_progress_bar 50 10
    ∧ format_uptime 0 60 = format_uptime 0 60 :=
  ⟨C10_determinism_amended.1 1024 1024 rfl,
    C10_determinism_amended.2.1 50 50 10 10 rfl rfl,
    C10_determinism_amended.2.2 0 60 0 60 rfl rfl⟩

end HealthDashboard
